import Mathlib

/-!
Verification of the LED-matrix controller against its specification.

This file shallowly embeds the Rust sources (`commands.rs`, `device.rs`,
`stats.rs`, `presets.rs`, `utils.rs`, `main.rs`) as executable Lean
definitions and proves (or refutes) the spec's claims about them.

Byte sequences (`Vec<u8>` / `&[u8]`) are modelled as `List Nat`, with
every element intended to be `< 256`.  Machine arithmetic that can wrap
(the u8 idle-frame counter) is modelled with explicit `% 256`.
-/

/-! # Protocol constants and command generators (commands.rs, main.rs) -/

/-- `MAGIC1` from commands.rs: first marker byte of every frame. -/
def MAGIC1 : Nat := 0x32

/-- `MAGIC2` from commands.rs: second marker byte of every frame. -/
def MAGIC2 : Nat := 0xAC

/-- `MATRIX_WIDTH` from presets.rs / utils.rs. -/
def MATRIX_WIDTH : Nat := 9

/-- `MATRIX_HEIGHT` from presets.rs / utils.rs. -/
def MATRIX_HEIGHT : Nat := 34

/-- `brightness` from commands.rs: `vec![MAGIC1, MAGIC2, 0x00, level]`. -/
def brightness (level : Nat) : List Nat := [MAGIC1, MAGIC2, 0x00, level]

/-- `percentage` from commands.rs: `vec![MAGIC1, MAGIC2, 0x01, 0x00, percent]`. -/
def percentage (percent : Nat) : List Nat := [MAGIC1, MAGIC2, 0x01, 0x00, percent]

/-- `pattern_percentage` from main.rs: `vec![MAGIC1, MAGIC2, 0x01, 0x00, value]`. -/
def pattern_percentage (value : Nat) : List Nat := [MAGIC1, MAGIC2, 0x01, 0x00, value]

/-- `pattern_gradient` from main.rs. -/
def pattern_gradient : List Nat := [MAGIC1, MAGIC2, 0x01, 0x01]

/-- `pattern_double_gradient` from main.rs. -/
def pattern_double_gradient : List Nat := [MAGIC1, MAGIC2, 0x01, 0x02]

/-- `pattern_lotus_horizontal` from main.rs. -/
def pattern_lotus_horizontal : List Nat := [MAGIC1, MAGIC2, 0x01, 0x03]

/-- `pattern_zigzag` from main.rs. -/
def pattern_zigzag : List Nat := [MAGIC1, MAGIC2, 0x01, 0x04]

/-- `pattern_full_brightness` from main.rs. -/
def pattern_full_brightness : List Nat := [MAGIC1, MAGIC2, 0x01, 0x05]

/-- `pattern_panic` from main.rs. -/
def pattern_panic : List Nat := [MAGIC1, MAGIC2, 0x01, 0x06]

/-- `pattern_lotus_vertical` from main.rs. -/
def pattern_lotus_vertical : List Nat := [MAGIC1, MAGIC2, 0x01, 0x07]

/-- `set_animate` from main.rs. -/
def set_animate (enabled : Bool) : List Nat :=
  [MAGIC1, MAGIC2, 0x04, if enabled then 1 else 0]

/-! # Device link (device.rs)

The serial port itself is outside the program; a call to
`port.write_all(..)` is modelled by its outcome, a value of type
`Except IoError Unit` supplied as an argument.  What we embed is how each
`send` treats that outcome. -/

/-- Write failure on an open link (`std::io::Error` carrying a message). -/
inductive IoError where
  | writeFailed : String → IoError
deriving DecidableEq

/-- `Device::send` from device.rs:
`pub fn send(&mut self, data: Vec<u8>) { let _ = self.port.write_all(&data); }`.
The write outcome is bound to `_` and the function returns `()`; modelled as
the outcome the caller observes, which is `ok ()` regardless of the write. -/
def Device.send (_write_result : Except IoError Unit) : Except IoError Unit :=
  Except.ok ()

/-- `LedDevice::send` from device.rs:
`self.port.write_all(&packet)?; Ok(())` — the `?` operator propagates the
write error to the caller. -/
def LedDevice.send (write_result : Except IoError Unit) : Except IoError Unit :=
  match write_result with
  | Except.error e => Except.error e
  | Except.ok _ => Except.ok ()

/-- The send used by the scheduled update path: `MyApp::update_metrics` in
main.rs calls `dev.send(command)` where `dev` is a `device::Device`. -/
def scheduled_send (write_result : Except IoError Unit) : Except IoError Unit :=
  Device.send write_result

/-! # Stats (stats.rs) -/

/-- `Stats::cpu_usage` clamp from stats.rs:
`(usage.clamp(0.0, 100.0) as u8).min(255)`, modelled at natural-number
granularity (the f32 clamp followed by the saturating `as u8` cast sends
any reading to a value in 0..=100). -/
def cpu_usage_clamped (usage : Nat) : Nat := min (min usage 100) 255

/-! # Idle animation counter (main.rs, MyApp::update_metrics) -/

/-- `self.idle_frame = self.idle_frame.wrapping_add(1)` on a u8. -/
def tick_idle_frame (f : Nat) : Nat := (f + 1) % 256

/-- `(self.idle_frame / 4) % 3` from the "idle" arm of `update_metrics`. -/
def idle_sub_index (f : Nat) : Nat := f / 4 % 3

/-- `n` consecutive advances of the idle frame counter. -/
def tick_iter : Nat → Nat → Nat
  | 0, f => f
  | n + 1, f => tick_iter n (tick_idle_frame f)

/-- The 4-byte frame built by the "idle" arm of `update_metrics`:
`vec![MAGIC1, MAGIC2, 0x14, pattern]` with `pattern = (idle_frame / 4) % 3`. -/
def idle_command (idle_frame : Nat) : List Nat :=
  [MAGIC1, MAGIC2, 0x14, idle_frame / 4 % 3]

/-- Modelled from the spec: the opcodes of the §6 wire-protocol table
(0x00 Brightness, 0x01 Pattern/Percentage, 0x03 Sleep, 0x04 Animate,
0x07 StageGreyColumn, 0x08 FlushColumns, 0x13 SetColor, and the reserved
0x10 / 0x20). -/
def documented_opcodes : List Nat :=
  [0x00, 0x01, 0x03, 0x04, 0x07, 0x08, 0x13, 0x10, 0x20]

/-! # Preset store (presets.rs)

`PresetManager` holds a `HashMap<String, CustomPreset>`, modelled as a
function from names to optional presets.  `save_to_file` writes JSON to
disk; that external write is modelled by its outcome: `none` for success,
`some e` for an OS error with message `e`. -/

/-- `CustomPreset` from presets.rs. -/
structure CustomPreset where
  name : String
  image_data : List Nat
deriving DecidableEq

/-- `PresetManager` from presets.rs, the `HashMap` modelled as a map. -/
structure PresetManager where
  presets : String → Option CustomPreset

/-- `PresetManager::new`: an empty map. -/
def PresetManager.new : PresetManager := ⟨fun _ => none⟩

/-- `PresetManager::save_preset`.  Mirrors the source: reject with the
size-mismatch message if `image_data.len() != MATRIX_WIDTH * MATRIX_HEIGHT`
(before touching the map or the disk); otherwise insert/overwrite the entry,
then attempt `save_to_file`, mapping a persistence error `e` to
`"Failed to save preset: " ++ e`.  The returned triple is
(result, new manager state, whether a persistence write was attempted). -/
def PresetManager.save_preset (m : PresetManager) (name : String)
    (image_data : List Nat) (persist_result : Option String) :
    Except String Unit × PresetManager × Bool :=
  if image_data.length ≠ MATRIX_WIDTH * MATRIX_HEIGHT then
    (Except.error (s!"Invalid image data size. Expected {MATRIX_WIDTH * MATRIX_HEIGHT}, got {image_data.length}"),
     m, false)
  else
    let m' : PresetManager :=
      ⟨fun k => if k = name then some ⟨name, image_data⟩ else m.presets k⟩
    match persist_result with
    | none => (Except.ok (), m', true)
    | some e => (Except.error ("Failed to save preset: " ++ e), m', true)

/-- `PresetManager::get_preset`: `self.presets.get(name).map(|p| p.image_data.clone())`. -/
def PresetManager.get_preset (m : PresetManager) (name : String) : Option (List Nat) :=
  (m.presets name).map (fun p => p.image_data)

/-- `PresetManager::delete_preset`: remove (a no-op on an absent name),
then attempt `save_to_file`. -/
def PresetManager.delete_preset (m : PresetManager) (name : String)
    (persist_result : Option String) : Except String Unit × PresetManager :=
  let m' : PresetManager := ⟨fun k => if k = name then none else m.presets k⟩
  match persist_result with
  | none => (Except.ok (), m')
  | some e => (Except.error e, m')

/-! # Bitmap encoding (presets.rs, `image_data_to_command`) -/

/-- `image_data_to_command` from presets.rs.  Returns the empty byte vector
when the image is not exactly `MATRIX_WIDTH * MATRIX_HEIGHT` bytes;
otherwise, for each column `x`, pushes the StageGreyColumn header
`[0x32, 0xAC, 0x07, x]` followed by the 34 bytes `image_data[x + y*9]`
(`y = 0..34`), then pushes the FlushColumns frame `[0x32, 0xAC, 0x08, 0x00]`.
The index `x + y * MATRIX_WIDTH` is at most 305, so `getD _ 0` coincides
with the source's (panicking) indexing. -/
def image_data_to_command (image_data : List Nat) : List Nat :=
  if image_data.length ≠ MATRIX_WIDTH * MATRIX_HEIGHT then
    []
  else
    ((List.range MATRIX_WIDTH).foldl (fun commands x =>
      commands ++ [0x32, 0xAC, 0x07, x] ++
        (List.range MATRIX_HEIGHT).map (fun y => image_data.getD (x + y * MATRIX_WIDTH) 0)) [])
    ++ [0x32, 0xAC, 0x08, 0x00]

/-- The StageGreyColumn frame for column `x` as the claim describes it:
the 38 bytes `[0x32, 0xAC, 0x07, x, img[x+0*9], img[x+1*9], ..., img[x+33*9]]`. -/
def stage_column_frame (img : List Nat) (x : Nat) : List Nat :=
  [0x32, 0xAC, 0x07, x] ++ (List.range 34).map (fun y => img.getD (x + y * 9) 0)

/-! # Per-tick command dispatch (main.rs, `MyApp::update_metrics`)

On each tick `update_metrics` first advances `idle_frame`, then for each
connected device selects a command by matching the device's preset string,
and sends it only when it is non-empty.  The external inputs of a tick —
the sampled metrics, the local time and the battery reading — are passed
as parameters.  The clock and battery renderers are embedded further
below; here the dispatch is embedded for the non-bitmap arms, which is
all C10 needs. -/

/-- The command chosen by `update_metrics` for a device whose preset is one
of the non-bitmap modes (the "clock", "battery" and custom-preset arms
build bitmaps and are covered by the renderer embeddings below; for
dispatch purposes they are folded into the final lookup arm here via
`bitmap_command`). -/
def update_command (preset : String) (cpu_percent ram_percent idle_frame : Nat)
    (bitmap_command : String → List Nat) : List Nat :=
  match preset with
  | "cpu" => pattern_percentage cpu_percent
  | "ram" => pattern_percentage ram_percent
  | "idle" => [MAGIC1, MAGIC2, 0x14, idle_frame / 4 % 3]
  | "gradient" => pattern_gradient
  | "double_gradient" => pattern_double_gradient
  | "zigzag" => pattern_zigzag
  | "lotus_h" => pattern_lotus_horizontal
  | "lotus_v" => pattern_lotus_vertical
  | "full_brightness" => pattern_full_brightness
  | "panic" => pattern_panic
  | other => bitmap_command other

/-- `if !command.is_empty() { dev.send(command); }`: the frame actually
sent on a tick, `none` when the command is empty. -/
def sent_frame (preset : String) (cpu_percent ram_percent idle_frame : Nat)
    (bitmap_command : String → List Nat) : Option (List Nat) :=
  let command := update_command preset cpu_percent ram_percent idle_frame bitmap_command
  if command = [] then none else some command

/-! # Machinery for reasoning about in-place pixel writes

The renderers in utils.rs mutate a 306-byte buffer by repeatedly writing a
value to a cell and the cell next to it.  `writePair` is one such double
write, `apply_writes` a loop of them, and the `getD` lemmas recover what a
cell holds after the loop: the value of the (unique) step that wrote it,
or the original content if no step did. -/

/-- Write `v` to cells `i` and `i + 1` of a buffer. -/
def writePair (d : List Nat) (i v : Nat) : List Nat := (d.set i v).set (i + 1) v

/-- One write per element of `L`: step `i` writes `val i` to cells
`pos i` and `pos i + 1`. -/
def apply_writes (pos val : Nat → Nat) (L : List Nat) (data : List Nat) : List Nat :=
  L.foldl (fun d i => writePair d (pos i) (val i)) data

/-! # Rendering algorithms (utils.rs) -/

/-- `render_binary_number` from utils.rs: writes `number` as an 8-bit
binary column block, MSB at top.  For each `bit` in `0..8`, row
`row_start + (7 - bit)` of columns `col_start` and `col_start + 1` gets
brightness 200 when the bit is set (`number & (1 << bit) != 0`), 30 when
clear; a write whose row or column would fall outside the matrix is
skipped. -/
def render_binary_number (image_data : List Nat) (number : Nat)
    (col_start row_start : Nat) : List Nat :=
  (List.range 8).foldl (fun data bit =>
    let brightness := if number &&& 1 <<< bit ≠ 0 then 200 else 30
    let row := row_start + (7 - bit)
    if row < MATRIX_HEIGHT ∧ col_start + 1 < MATRIX_WIDTH then
      let idx := col_start + row * MATRIX_WIDTH
      (data.set idx brightness).set (idx + 1) brightness
    else data) image_data

/-- `render_clock_display` from utils.rs, with the wall-clock reading
(`Local::now().hour()`, `Local::now().minute()` — the spec's external
`Clock.nowLocal()` collaborator) passed as parameters: a zeroed 306-byte
buffer with the hour rendered in binary at row 0 and the minute at
row 17. -/
def render_clock_display (hours minutes : Nat) : List Nat :=
  let image_data := List.replicate (MATRIX_WIDTH * MATRIX_HEIGHT) 0
  render_binary_number (render_binary_number image_data hours 0 0) minutes 0 17

/-- `render_battery_bar` from utils.rs: clamp the percentage to 100,
compute `filled_rows = min(percentage * 34 / 100, 34)`, and for every row
and the two leftmost columns write the tier brightness
(100 if percentage > 50, 150 if percentage > 20, else 255) when
`34 - row ≤ filled_rows`, and the dim value 20 otherwise. -/
def render_battery_bar (image_data : List Nat) (percentage : Nat) : List Nat :=
  let percentage := min percentage 100
  let filled_rows := min (percentage * MATRIX_HEIGHT / 100) MATRIX_HEIGHT
  (List.range MATRIX_HEIGHT).foldl (fun data row =>
    (List.range 2).foldl (fun data col =>
      let idx := col + row * MATRIX_WIDTH
      data.set idx
        (if MATRIX_HEIGHT - row ≤ filled_rows then
          (if 50 < percentage then 100 else if 20 < percentage then 150 else 255)
        else 20)) data) image_data

/-- `render_battery_display` from utils.rs, with the battery reading
(`get_battery_percentage().unwrap_or(100.0) as u8` — the spec's external
`BatteryProvider` collaborator) passed as a parameter: the battery-bar
fill followed by the percentage stamped as a binary block at row 8. -/
def render_battery_display (percent : Nat) : List Nat :=
  let image_data := List.replicate (MATRIX_WIDTH * MATRIX_HEIGHT) 0
  render_binary_number (render_battery_bar image_data percent) percent 0 8

/-- Modelled from the spec: the decoder of an 8-bit binary block —
bit `bit` of the result is set exactly when the cell at column
`col_start`, row `row_start + (7 - bit)` holds brightness 200. -/
def decode_binary (data : List Nat) (col_start row_start : Nat) : Nat :=
  (List.range 8).foldl (fun acc bit =>
    acc + if data.getD (col_start + (row_start + (7 - bit)) * 9) 0 = 200
      then 1 <<< bit else 0) 0

theorem writePair_length (d : List Nat) (i v : Nat) :
    (writePair d i v).length = d.length := by
  simp [writePair]

theorem getD_set_self (l : List Nat) (i v : Nat) (h : i < l.length) :
    (l.set i v).getD i 0 = v := by
  simp [List.getD_eq_getElem?_getD, List.getElem?_set_self h]

theorem getD_set_ne (l : List Nat) (i j v : Nat) (h : i ≠ j) :
    (l.set i v).getD j 0 = l.getD j 0 := by
  simp [List.getD_eq_getElem?_getD, List.getElem?_set_ne h]

theorem apply_writes_length (pos val : Nat → Nat) (L : List Nat) :
    ∀ data : List Nat, (apply_writes pos val L data).length = data.length := by
  induction L with
  | nil => intro data; rfl
  | cons a L ih =>
    intro data
    rw [show apply_writes pos val (a :: L) data
        = apply_writes pos val L (writePair data (pos a) (val a)) from rfl]
    rw [ih, writePair_length]

/-- A cell no step writes to keeps its original content. -/
theorem apply_writes_getD_miss (pos val : Nat → Nat) (L : List Nat) :
    ∀ (data : List Nat) (j : Nat), (∀ i ∈ L, pos i ≠ j ∧ pos i + 1 ≠ j) →
      (apply_writes pos val L data).getD j 0 = data.getD j 0 := by
  induction L with
  | nil => intro data j _; rfl
  | cons a L ih =>
    intro data j hmiss
    rw [show apply_writes pos val (a :: L) data
        = apply_writes pos val L (writePair data (pos a) (val a)) from rfl]
    rw [ih _ j (fun i hi => hmiss i (List.mem_cons_of_mem a hi))]
    have ha := hmiss a (List.mem_cons_self a L)
    simp only [writePair]
    rw [getD_set_ne _ _ _ _ ha.2, getD_set_ne _ _ _ _ ha.1]

/-- A cell written by step `i₀` and by no other step holds `val i₀`
after the loop. -/
theorem apply_writes_getD_hit (pos val : Nat → Nat) (i₀ c j : Nat)
    (hc : c < 2) (hj : j = pos i₀ + c) (L : List Nat) :
    ∀ data : List Nat, i₀ ∈ L →
      (∀ i ∈ L, pos i + 1 < data.length) →
      (∀ i ∈ L, i ≠ i₀ → pos i ≠ j ∧ pos i + 1 ≠ j) →
      (apply_writes pos val L data).getD j 0 = val i₀ := by
  induction L with
  | nil => intro data hmem _ _; cases hmem
  | cons a L ih =>
    intro data hmem hbound hsep
    rw [show apply_writes pos val (a :: L) data
        = apply_writes pos val L (writePair data (pos a) (val a)) from rfl]
    by_cases hmem' : i₀ ∈ L
    · refine ih (writePair data (pos a) (val a)) hmem' ?_ ?_
      · intro i hi
        rw [writePair_length]
        exact hbound i (List.mem_cons_of_mem a hi)
      · intro i hi hne
        exact hsep i (List.mem_cons_of_mem a hi) hne
    · have ha : a = i₀ := by
        rcases List.mem_cons.mp hmem with he | he
        · exact he.symm
        · exact absurd he hmem'
      subst ha
      rw [apply_writes_getD_miss pos val L _ j
        (fun i hi => hsep i (List.mem_cons_of_mem _ hi) (fun he => hmem' (he ▸ hi)))]
      have hb : pos a + 1 < data.length := hbound a (List.mem_cons_self _ _)
      simp only [writePair]
      subst hj
      interval_cases c
      · rw [getD_set_ne _ _ _ _ (by omega), Nat.add_zero]
        exact getD_set_self _ _ _ (by omega)
      · exact getD_set_self _ _ _ (by rw [List.length_set]; omega)

/-! # Read-back lemmas for the renderers -/

/-- `render_binary_number` as a loop of double writes: when the whole
block fits (row_start + 7 < 34 and col_start + 1 < 9) no write is
skipped, and step `bit` writes its brightness at
`col_start + (row_start + (7 - bit)) * 9`. -/
theorem render_binary_number_eq (data : List Nat) (number col_start row_start : Nat)
    (hrs : row_start + 7 < 34) (hcs : col_start + 1 < 9) :
    render_binary_number data number col_start row_start =
      apply_writes (fun bit => col_start + (row_start + (7 - bit)) * 9)
        (fun bit => if number &&& 1 <<< bit ≠ 0 then 200 else 30)
        (List.range 8) data := by
  unfold render_binary_number apply_writes
  refine List.foldl_ext _ _ data (fun d bit _ => ?_)
  simp only [writePair, MATRIX_HEIGHT, MATRIX_WIDTH]
  rw [if_pos ⟨by omega, by omega⟩]

/-- `render_battery_bar` as a loop of double writes: step `row` writes
the bar value of that row at `row * 9` (columns 0 and 1). -/
theorem render_battery_bar_eq (data : List Nat) (p : Nat) (hp : p ≤ 100) :
    render_battery_bar data p =
      apply_writes (fun row => row * 9)
        (fun row => if 34 - row ≤ p * 34 / 100 then
          (if 50 < p then 100 else if 20 < p then 150 else 255) else 20)
        (List.range 34) data := by
  unfold render_battery_bar apply_writes
  have hmin1 : min p 100 = p := Nat.min_eq_left hp
  have hdiv : p * 34 / 100 ≤ 34 := by
    calc p * 34 / 100 ≤ 100 * 34 / 100 := Nat.div_le_div_right (by omega)
    _ = 34 := by norm_num
  have hmin2 : min (p * 34 / 100) 34 = p * 34 / 100 := Nat.min_eq_left hdiv
  simp only [MATRIX_HEIGHT, MATRIX_WIDTH, hmin1, hmin2]
  refine List.foldl_ext _ _ data (fun d row _ => ?_)
  rw [show List.range 2 = [0, 1] from rfl]
  simp only [List.foldl_cons, List.foldl_nil, writePair]
  rw [Nat.zero_add, Nat.add_comm 1 (row * 9)]

theorem ite_200_collapse (c : Prop) [Decidable c] (v : Nat) :
    (if (if c then (200 : Nat) else 30) = 200 then v else 0) = if c then v else 0 := by
  by_cases hc : c <;> simp [hc]

set_option maxRecDepth 4000 in
theorem sum_bits_eq (n : Nat) (hn : n < 256) :
    0 + (if n &&& 1 <<< 0 ≠ 0 then 1 <<< 0 else 0)
      + (if n &&& 1 <<< 1 ≠ 0 then 1 <<< 1 else 0)
      + (if n &&& 1 <<< 2 ≠ 0 then 1 <<< 2 else 0)
      + (if n &&& 1 <<< 3 ≠ 0 then 1 <<< 3 else 0)
      + (if n &&& 1 <<< 4 ≠ 0 then 1 <<< 4 else 0)
      + (if n &&& 1 <<< 5 ≠ 0 then 1 <<< 5 else 0)
      + (if n &&& 1 <<< 6 ≠ 0 then 1 <<< 6 else 0)
      + (if n &&& 1 <<< 7 ≠ 0 then 1 <<< 7 else 0) = n := by
  have H : ∀ k : Fin 256,
      0 + (if k.val &&& 1 <<< 0 ≠ 0 then 1 <<< 0 else 0)
        + (if k.val &&& 1 <<< 1 ≠ 0 then 1 <<< 1 else 0)
        + (if k.val &&& 1 <<< 2 ≠ 0 then 1 <<< 2 else 0)
        + (if k.val &&& 1 <<< 3 ≠ 0 then 1 <<< 3 else 0)
        + (if k.val &&& 1 <<< 4 ≠ 0 then 1 <<< 4 else 0)
        + (if k.val &&& 1 <<< 5 ≠ 0 then 1 <<< 5 else 0)
        + (if k.val &&& 1 <<< 6 ≠ 0 then 1 <<< 6 else 0)
        + (if k.val &&& 1 <<< 7 ≠ 0 then 1 <<< 7 else 0) = k.val := by decide
  exact H ⟨n, hn⟩

theorem mem_range8_of_lt (bit : Nat) (hbit : bit < 8) : bit ∈ [0, 1, 2, 3, 4, 5, 6, 7] := by
  rw [show [0, 1, 2, 3, 4, 5, 6, 7] = List.range 8 from by decide]
  exact List.mem_range.mpr hbit

theorem lt8_of_mem_range8 (i : Nat) (hi : i ∈ [0, 1, 2, 3, 4, 5, 6, 7]) : i < 8 := by
  rw [show [0, 1, 2, 3, 4, 5, 6, 7] = List.range 8 from by decide] at hi
  exact List.mem_range.mp hi

/-- Decoding the block that `render_binary_number` just wrote recovers the
number (for any u8 number and any block position fully inside the matrix). -/
theorem decode_binary_rbn (data : List Nat) (n cs rs : Nat) (hlen : data.length = 306)
    (hrs : rs + 7 < 34) (hcs : cs + 1 < 9) (hn : n < 256) :
    decode_binary (render_binary_number data n cs rs) cs rs = n := by
  rw [render_binary_number_eq data n cs rs hrs hcs]
  unfold decode_binary
  rw [show List.range 8 = [0, 1, 2, 3, 4, 5, 6, 7] from by decide]
  simp only [List.foldl_cons, List.foldl_nil]
  have hread : ∀ bit : Nat, bit < 8 →
      (apply_writes (fun bit => cs + (rs + (7 - bit)) * 9)
        (fun bit => if n &&& 1 <<< bit ≠ 0 then 200 else 30)
        [0, 1, 2, 3, 4, 5, 6, 7] data).getD (cs + (rs + (7 - bit)) * 9) 0 =
      (if n &&& 1 <<< bit ≠ 0 then 200 else 30) := by
    intro bit hbit
    refine apply_writes_getD_hit _ _ bit 0 _ (by omega) (by omega) [0, 1, 2, 3, 4, 5, 6, 7]
      data (mem_range8_of_lt bit hbit) ?_ ?_
    · intro i hi
      have := lt8_of_mem_range8 i hi
      rw [hlen]
      omega
    · intro i hi hne
      have := lt8_of_mem_range8 i hi
      constructor <;> omega
  rw [hread 0 (by omega), hread 1 (by omega), hread 2 (by omega), hread 3 (by omega),
      hread 4 (by omega), hread 5 (by omega), hread 6 (by omega), hread 7 (by omega)]
  simp only [ite_200_collapse]
  exact sum_bits_eq n hn

/-- Rendering the minute block (rows 17..25) does not disturb the hour
block read at rows 0..8. -/
theorem decode_binary_hour_passthrough (X : List Nat) (m : Nat) :
    decode_binary (render_binary_number X m 0 17) 0 0 = decode_binary X 0 0 := by
  rw [render_binary_number_eq X m 0 17 (by omega) (by omega)]
  unfold decode_binary
  rw [show List.range 8 = [0, 1, 2, 3, 4, 5, 6, 7] from by decide]
  simp only [List.foldl_cons, List.foldl_nil]
  have hmiss : ∀ bit : Nat, bit < 8 →
      (apply_writes (fun bit => 0 + (17 + (7 - bit)) * 9)
        (fun bit => if m &&& 1 <<< bit ≠ 0 then 200 else 30)
        [0, 1, 2, 3, 4, 5, 6, 7] X).getD (0 + (0 + (7 - bit)) * 9) 0 =
      X.getD (0 + (0 + (7 - bit)) * 9) 0 := by
    intro bit hbit
    refine apply_writes_getD_miss _ _ [0, 1, 2, 3, 4, 5, 6, 7] X _ ?_
    intro i hi
    have := lt8_of_mem_range8 i hi
    constructor <;> omega
  rw [hmiss 0 (by omega), hmiss 1 (by omega), hmiss 2 (by omega), hmiss 3 (by omega),
      hmiss 4 (by omega), hmiss 5 (by omega), hmiss 6 (by omega), hmiss 7 (by omega)]

/-- C6: for every hour (0–23) and minute (0–59), the rendered clock bitmap
has 306 bytes; the hour is written as an 8-bit binary block starting at
row 0 (MSB at top, set bit → 200, clear bit → 30, columns 0 and 1) and
the minute the same way starting at row 17; decoding the top block
recovers the hour and decoding the block at row 17 recovers the minute. -/
theorem clock_display_correct (h m : Nat) (hh : h ≤ 23) (hm : m ≤ 59) :
    (render_clock_display h m).length = 306 ∧
    (∀ bit, bit < 8 → ∀ col, col < 2 →
      (render_clock_display h m).getD (col + (7 - bit) * 9) 0 =
        (if h &&& 1 <<< bit ≠ 0 then 200 else 30) ∧
      (render_clock_display h m).getD (col + (17 + (7 - bit)) * 9) 0 =
        (if m &&& 1 <<< bit ≠ 0 then 200 else 30)) ∧
    decode_binary (render_clock_display h m) 0 0 = h ∧
    decode_binary (render_clock_display h m) 0 17 = m := by
  have hbase : (List.replicate (MATRIX_WIDTH * MATRIX_HEIGHT) 0).length = 306 := by
    rw [List.length_replicate]
    decide
  have hhour_len :
      (render_binary_number (List.replicate (MATRIX_WIDTH * MATRIX_HEIGHT) 0) h 0 0).length
        = 306 := by
    rw [render_binary_number_eq _ h 0 0 (by omega) (by omega), apply_writes_length, hbase]
  have hclock : render_clock_display h m =
      render_binary_number
        (render_binary_number (List.replicate (MATRIX_WIDTH * MATRIX_HEIGHT) 0) h 0 0)
        m 0 17 := rfl
  refine ⟨?_, ?_, ?_, ?_⟩
  · rw [hclock, render_binary_number_eq _ m 0 17 (by omega) (by omega),
      apply_writes_length, hhour_len]
  · intro bit hbit col hcol
    have hmiss17 : ∀ j : Nat, j < 144 →
        (apply_writes (fun bit => 0 + (17 + (7 - bit)) * 9)
          (fun bit => if m &&& 1 <<< bit ≠ 0 then 200 else 30)
          (List.range 8)
          (render_binary_number (List.replicate (MATRIX_WIDTH * MATRIX_HEIGHT) 0) h 0 0)).getD
            j 0 =
        (render_binary_number (List.replicate (MATRIX_WIDTH * MATRIX_HEIGHT) 0) h 0 0).getD
          j 0 := by
      intro j hj
      refine apply_writes_getD_miss _ _ (List.range 8) _ j ?_
      intro i hi
      have := List.mem_range.mp hi
      constructor <;> omega
    constructor
    · rw [hclock, render_binary_number_eq _ m 0 17 (by omega) (by omega)]
      rw [hmiss17 (col + (7 - bit) * 9) (by omega)]
      rw [render_binary_number_eq _ h 0 0 (by omega) (by omega)]
      refine apply_writes_getD_hit _ _ bit col _ hcol ?_ (List.range 8) _
        (List.mem_range.mpr hbit) ?_ ?_
      · omega
      · intro i hi
        have := List.mem_range.mp hi
        rw [hbase]
        omega
      · intro i hi hne
        have := List.mem_range.mp hi
        constructor <;> omega
    · rw [hclock, render_binary_number_eq _ m 0 17 (by omega) (by omega)]
      refine apply_writes_getD_hit _ _ bit col _ hcol ?_ (List.range 8) _
        (List.mem_range.mpr hbit) ?_ ?_
      · omega
      · intro i hi
        have := List.mem_range.mp hi
        rw [hhour_len]
        omega
      · intro i hi hne
        have := List.mem_range.mp hi
        constructor <;> omega
  · rw [hclock, decode_binary_hour_passthrough]
    exact decode_binary_rbn _ h 0 0 hbase (by omega) (by omega) (by omega)
  · rw [hclock]
    exact decode_binary_rbn _ m 0 17 hhour_len (by omega) (by omega) (by omega)

/-- C6 witness: the theorem at hour 13, minute 5 (the spec's example). -/
theorem clock_display_correct_witness :
    (13 : Nat) ≤ 23 ∧ (5 : Nat) ≤ 59 ∧
    ((render_clock_display 13 5).length = 306 ∧
     (∀ bit, bit < 8 → ∀ col, col < 2 →
       (render_clock_display 13 5).getD (col + (7 - bit) * 9) 0 =
         (if 13 &&& 1 <<< bit ≠ 0 then 200 else 30) ∧
       (render_clock_display 13 5).getD (col + (17 + (7 - bit)) * 9) 0 =
         (if 5 &&& 1 <<< bit ≠ 0 then 200 else 30)) ∧
     decode_binary (render_clock_display 13 5) 0 0 = 13 ∧
     decode_binary (render_clock_display 13 5) 0 17 = 5) :=
  ⟨by decide, by decide, clock_display_correct 13 5 (by decide) (by decide)⟩

/-- C7: for every battery percent 0–100, the rendered battery bitmap has
306 bytes; outside the stamped rows 8–15, columns 0–1 hold the bar: the
bottom `percent * 34 / 100` rows lit at the tier brightness (100 if
percent > 50, 150 if percent > 20, else 255) and the remainder dimmed
to 20; rows 8–15 of columns 0–1 hold the percent stamped as an 8-bit
binary block (200 for set bits, 30 for clear bits, the stamp overwriting
the bar there), and decoding that block recovers the percent. -/
theorem battery_display_correct (p : Nat) (hp : p ≤ 100) :
    (render_battery_display p).length = 306 ∧
    (∀ row, row < 34 → row < 8 ∨ 15 < row → ∀ col, col < 2 →
      (render_battery_display p).getD (col + row * 9) 0 =
        (if 34 - row ≤ p * 34 / 100 then
          (if 50 < p then 100 else if 20 < p then 150 else 255) else 20)) ∧
    (∀ bit, bit < 8 → ∀ col, col < 2 →
      (render_battery_display p).getD (col + (8 + (7 - bit)) * 9) 0 =
        (if p &&& 1 <<< bit ≠ 0 then 200 else 30)) ∧
    decode_binary (render_battery_display p) 0 8 = p := by
  have hbase : (List.replicate (MATRIX_WIDTH * MATRIX_HEIGHT) 0).length = 306 := by
    rw [List.length_replicate]
    decide
  have hbar_len :
      (render_battery_bar (List.replicate (MATRIX_WIDTH * MATRIX_HEIGHT) 0) p).length
        = 306 := by
    rw [render_battery_bar_eq _ p hp, apply_writes_length, hbase]
  have hbat : render_battery_display p =
      render_binary_number
        (render_battery_bar (List.replicate (MATRIX_WIDTH * MATRIX_HEIGHT) 0) p)
        p 0 8 := rfl
  refine ⟨?_, ?_, ?_, ?_⟩
  · rw [hbat, render_binary_number_eq _ p 0 8 (by omega) (by omega),
      apply_writes_length, hbar_len]
  · intro row hrow hstamp col hcol
    rw [hbat, render_binary_number_eq _ p 0 8 (by omega) (by omega)]
    have hmiss8 : (apply_writes (fun bit => 0 + (8 + (7 - bit)) * 9)
        (fun bit => if p &&& 1 <<< bit ≠ 0 then 200 else 30) (List.range 8)
        (render_battery_bar (List.replicate (MATRIX_WIDTH * MATRIX_HEIGHT) 0) p)).getD
          (col + row * 9) 0 =
        (render_battery_bar (List.replicate (MATRIX_WIDTH * MATRIX_HEIGHT) 0) p).getD
          (col + row * 9) 0 := by
      refine apply_writes_getD_miss _ _ (List.range 8) _ _ ?_
      intro i hi
      have := List.mem_range.mp hi
      constructor <;> omega
    rw [hmiss8, render_battery_bar_eq _ p hp]
    refine apply_writes_getD_hit _ _ row col _ hcol ?_ (List.range 34) _
      (List.mem_range.mpr hrow) ?_ ?_
    · omega
    · intro i hi
      have := List.mem_range.mp hi
      rw [hbase]
      omega
    · intro i hi hne
      have := List.mem_range.mp hi
      constructor <;> omega
  · intro bit hbit col hcol
    rw [hbat, render_binary_number_eq _ p 0 8 (by omega) (by omega)]
    refine apply_writes_getD_hit _ _ bit col _ hcol ?_ (List.range 8) _
      (List.mem_range.mpr hbit) ?_ ?_
    · omega
    · intro i hi
      have := List.mem_range.mp hi
      rw [hbar_len]
      omega
    · intro i hi hne
      have := List.mem_range.mp hi
      constructor <;> omega
  · rw [hbat]
    exact decode_binary_rbn _ p 0 8 hbar_len (by omega) (by omega) (by omega)

/-- C7 witness: the theorem at the concrete battery percent 57. -/
theorem battery_display_correct_witness :
    (57 : Nat) ≤ 100 ∧
    ((render_battery_display 57).length = 306 ∧
     (∀ row, row < 34 → row < 8 ∨ 15 < row → ∀ col, col < 2 →
       (render_battery_display 57).getD (col + row * 9) 0 =
         (if 34 - row ≤ 57 * 34 / 100 then
           (if 50 < 57 then 100 else if 20 < 57 then 150 else 255) else 20)) ∧
     (∀ bit, bit < 8 → ∀ col, col < 2 →
       (render_battery_display 57).getD (col + (8 + (7 - bit)) * 9) 0 =
         (if 57 &&& 1 <<< bit ≠ 0 then 200 else 30)) ∧
     decode_binary (render_battery_display 57) 0 8 = 57) :=
  ⟨by decide, battery_display_correct 57 (by decide)⟩

/-! # Claims C2, C3, C4, C5 (partial: counterexamples and amended forms) -/

/-- C2 counterexample: the claim assigns zigzag id 3, but `pattern_zigzag`
in main.rs emits id 4 (id 3 belongs to `pattern_lotus_horizontal`). -/
theorem c2_pattern_ids_counterexample :
    pattern_zigzag ≠ [0x32, 0xAC, 0x01, 0x03] := by
  decide

/-- C2 (amended): the seven static patterns encode to the Pattern frame
`[0x32, 0xAC, 0x01, id]` with ids assigned in the code's order:
gradient = 1, double-gradient = 2, lotus-horizontal = 3, zigzag = 4,
full-brightness = 5, panic = 6, lotus-vertical = 7. -/
theorem c2_pattern_ids_amended :
    pattern_gradient = [0x32, 0xAC, 0x01, 1] ∧
    pattern_double_gradient = [0x32, 0xAC, 0x01, 2] ∧
    pattern_lotus_horizontal = [0x32, 0xAC, 0x01, 3] ∧
    pattern_zigzag = [0x32, 0xAC, 0x01, 4] ∧
    pattern_full_brightness = [0x32, 0xAC, 0x01, 5] ∧
    pattern_panic = [0x32, 0xAC, 0x01, 6] ∧
    pattern_lotus_vertical = [0x32, 0xAC, 0x01, 7] := by
  decide

/-- C3 counterexample: a failing write through `Device::send` is not
reported to the caller — the caller observes `ok ()`, not the error. -/
theorem c3_send_counterexample :
    Device.send (Except.error (IoError.writeFailed "broken pipe")) ≠
      Except.error (IoError.writeFailed "broken pipe") := by
  intro h
  exact Except.noConfusion h

/-- C3 (amended): `LedDevice::send` does propagate a write failure to its
caller, but the send used by the scheduled update path
(`MyApp::update_metrics` uses `Device::send`) discards the write outcome
and always returns success, so no I/O error reaches its caller. -/
theorem c3_send_amended :
    (∀ e : IoError, LedDevice.send (Except.error e) = Except.error e) ∧
    (∀ r : Except IoError Unit, scheduled_send r = Except.ok ()) := by
  constructor
  · intro e; rfl
  · intro r; rfl

/-- C4 counterexample: the percentage encoder does not clamp — at the
u8 argument 200 the frame's payload byte is 200, which exceeds 100. -/
theorem c4_percentage_counterexample :
    ¬ (percentage 200).getD 4 0 ≤ 100 := by
  decide

/-- C4 (amended): the percentage encoders (`percentage` in commands.rs and
`pattern_percentage` in main.rs) copy the argument into the payload byte
unclamped, so the payload is at most 100 exactly when the argument is;
clamping happens at the metric source instead (`Stats::cpu_usage` clamps
every reading into 0..=100 before it is encoded). -/
theorem c4_percentage_amended :
    (∀ p : Nat, (percentage p).getD 4 0 = p ∧ (pattern_percentage p).getD 4 0 = p) ∧
    (∀ p : Nat, p ≤ 100 → (percentage p).getD 4 0 ≤ 100) ∧
    (∀ usage : Nat, cpu_usage_clamped usage ≤ 100) := by
  refine ⟨fun p => ⟨rfl, rfl⟩, fun p hp => ?_, fun usage => ?_⟩
  · simpa [percentage, List.getD] using hp
  · simp only [cpu_usage_clamped]
    omega

/-- C4 witness: the amended theorem applied at the concrete input 57. -/
theorem c4_percentage_amended_witness :
    (57 : Nat) ≤ 100 ∧ (percentage 57).getD 4 0 ≤ 100 :=
  ⟨by decide, c4_percentage_amended.2.1 57 (by decide)⟩

/-- C5 counterexample: the idle sub-index is not 12-tick periodic across
the 255→0 wrap — starting from counter 250, twelve ticks later the counter
is 6, and the sub-indices differ (2 versus 1). -/
theorem c5_idle_period_counterexample :
    idle_sub_index (tick_iter 12 250) ≠ idle_sub_index 250 := by
  decide

/-- C5 (amended): the idle frame counter advances by exactly 1 per tick
(`wrapping_add(1)` on a u8), wrapping 255→0, and the idle sub-index equals
⌊frame/4⌋ mod 3; the sub-index 12 ticks later equals the sub-index now
whenever those 12 ticks do not cross the wrap (counter ≤ 243).  Across the
wrap the 12-tick periodicity fails, because 256 is not a multiple of 12. -/
theorem c5_idle_counter_amended :
    tick_idle_frame 255 = 0 ∧
    (∀ f : Nat, f < 255 → tick_idle_frame f = f + 1) ∧
    (∀ f : Nat, idle_sub_index f = f / 4 % 3) ∧
    (∀ f : Nat, f + 12 ≤ 255 → idle_sub_index (tick_iter 12 f) = idle_sub_index f) := by
  refine ⟨by decide, fun f hf => ?_, fun f => rfl, fun f hf => ?_⟩
  · simp only [tick_idle_frame]
    omega
  · simp only [tick_iter, tick_idle_frame, idle_sub_index]
    omega

/-- C5 witness: the amended theorem applied at the concrete counter 100. -/
theorem c5_idle_counter_amended_witness :
    ((100 : Nat) < 255 ∧ tick_idle_frame 100 = 101) ∧
    ((100 : Nat) + 12 ≤ 255 ∧ idle_sub_index (tick_iter 12 100) = idle_sub_index 100) :=
  ⟨⟨by decide, c5_idle_counter_amended.2.1 100 (by decide)⟩,
   ⟨by decide, c5_idle_counter_amended.2.2.2 100 (by decide)⟩⟩

/-- C8: saving a bitmap whose length is not 306 fails with the
size-mismatch error, leaves the preset map unchanged, and attempts no
persistence write. -/
theorem save_preset_rejects_bad_size (m : PresetManager) (name : String)
    (b : List Nat) (persist_result : Option String) (hb : b.length ≠ 306) :
    m.save_preset name b persist_result =
      (Except.error (s!"Invalid image data size. Expected {MATRIX_WIDTH * MATRIX_HEIGHT}, got {b.length}"),
       m, false) := by
  have h : b.length ≠ MATRIX_WIDTH * MATRIX_HEIGHT := by
    simpa [MATRIX_WIDTH, MATRIX_HEIGHT] using hb
  simp [PresetManager.save_preset, h]

/-- C8 witness: the theorem applied to the empty store, the empty bitmap
and a would-succeed persistence layer. -/
theorem save_preset_rejects_bad_size_witness :
    ([] : List Nat).length ≠ 306 ∧
    PresetManager.new.save_preset "x" [] none =
      (Except.error "Invalid image data size. Expected 306, got 0",
       PresetManager.new, false) :=
  ⟨by decide, save_preset_rejects_bad_size PresetManager.new "x" [] none (by decide)⟩

/-- C9: preset round-trip — for any store, any name and any 306-byte
bitmap, after `save_preset` (whatever the persistence outcome)
`get_preset` on that name returns exactly the saved bytes; an existing
entry under the same name is overwritten. -/
theorem save_preset_roundtrip (m : PresetManager) (name : String)
    (b : List Nat) (persist_result : Option String) (hb : b.length = 306) :
    (m.save_preset name b persist_result).2.1.get_preset name = some b := by
  have h : ¬ b.length ≠ MATRIX_WIDTH * MATRIX_HEIGHT := by
    simp [MATRIX_WIDTH, MATRIX_HEIGHT, hb]
  cases persist_result <;>
    simp [PresetManager.save_preset, PresetManager.get_preset, h]

/-- C9 witness: the theorem applied to a store that already holds an entry
named "x", overwritten by an all-zero 306-byte bitmap. -/
theorem save_preset_roundtrip_witness :
    (List.replicate 306 7).length = 306 ∧
    ((⟨fun _ => some ⟨"x", [1, 2, 3]⟩⟩ : PresetManager).save_preset "x"
        (List.replicate 306 7) none).2.1.get_preset "x" =
      some (List.replicate 306 7) :=
  ⟨List.length_replicate 306 7, save_preset_roundtrip ⟨fun _ => some ⟨"x", [1, 2, 3]⟩⟩ "x"
    (List.replicate 306 7) none (List.length_replicate 306 7)⟩

/-- C1: on a 306-byte image the encoder emits, in order, the nine
StageGreyColumn frames for columns 0..8 (38 bytes each) followed by the
4-byte FlushColumns frame, 346 bytes in total; on any other length it
emits nothing. -/
theorem image_data_to_command_correct (img : List Nat) :
    (img.length = 306 →
      image_data_to_command img =
        ((List.range 9).map (stage_column_frame img)).flatten ++ [0x32, 0xAC, 0x08, 0x00] ∧
      (∀ x, (stage_column_frame img x).length = 38) ∧
      (image_data_to_command img).length = 346) ∧
    (img.length ≠ 306 → image_data_to_command img = []) := by
  constructor
  · intro hlen
    have hcond : ¬ img.length ≠ MATRIX_WIDTH * MATRIX_HEIGHT := by
      simp [MATRIX_WIDTH, MATRIX_HEIGHT, hlen]
    have hframe : ∀ x, (stage_column_frame img x).length = 38 := by
      intro x
      simp [stage_column_frame]
    have heq : image_data_to_command img =
        ((List.range 9).map (stage_column_frame img)).flatten ++ [0x32, 0xAC, 0x08, 0x00] := by
      unfold image_data_to_command
      rw [if_neg hcond]
      simp only [MATRIX_WIDTH, MATRIX_HEIGHT]
      rw [show List.range 9 = [0, 1, 2, 3, 4, 5, 6, 7, 8] from by decide]
      simp [stage_column_frame, List.append_assoc]
    refine ⟨heq, hframe, ?_⟩
    rw [heq, show List.range 9 = [0, 1, 2, 3, 4, 5, 6, 7, 8] from by decide]
    simp [stage_column_frame, List.length_append, List.length_map, List.length_range]
  · intro hne
    unfold image_data_to_command
    rw [if_pos (by simpa [MATRIX_WIDTH, MATRIX_HEIGHT] using hne)]

/-- C1 witness: the theorem applied to the all-zero 306-byte image and to
the empty image. -/
theorem image_data_to_command_correct_witness :
    ((List.replicate 306 0).length = 306 ∧
      (image_data_to_command (List.replicate 306 0)).length = 346) ∧
    (([] : List Nat).length ≠ 306 ∧ image_data_to_command ([] : List Nat) = []) :=
  ⟨⟨List.length_replicate 306 0,
    ((image_data_to_command_correct (List.replicate 306 0)).1 (List.length_replicate 306 0)).2.2⟩,
   ⟨by decide, (image_data_to_command_correct []).2 (by decide)⟩⟩

/-- C10: on any tick, a connected display in "idle" mode is sent exactly
the 4-byte frame `[0x32, 0xAC, 0x14, idle_frame / 4 % 3]`, whose opcode
0x14 is not among the opcodes of the spec's wire-protocol table. -/
theorem idle_tick_sends_undocumented_opcode
    (cpu_percent ram_percent idle_frame : Nat) (bitmap_command : String → List Nat) :
    sent_frame "idle" cpu_percent ram_percent idle_frame bitmap_command =
      some [0x32, 0xAC, 0x14, idle_frame / 4 % 3] ∧
    [0x32, 0xAC, 0x14, idle_frame / 4 % 3].length = 4 ∧
    [0x32, 0xAC, 0x14, idle_frame / 4 % 3].getD 2 0 = 0x14 ∧
    0x14 ∉ documented_opcodes := by
  refine ⟨?_, rfl, rfl, by decide⟩
  simp [sent_frame, update_command, MAGIC1, MAGIC2]
